import Mathlib

/-!
Verification of the CV portfolio single-page application.

This file gives a shallow embedding of the two scripted components of the
repository — the navigation controller (`CVApp` in `assets/js/config.js`)
and the animation engine (`CVAnimations` in the animations script) — and
proves theorems settling the specified properties.

Modelling conventions:
* The DOM is a flat list of elements in document order; each element
  records its id, its class list and the id of its enclosing section
  (one level of nesting is all the modelled code inspects).
* JavaScript numbers are modelled as exact rationals.  `Math.sqrt` values
  (the distance to the mouse and the velocity magnitude) are passed as
  extra parameters, and theorems carry the hypothesis that the parameter
  squares to the corresponding sum of squares.
* Stateful methods become pure state-transformers; instrumentation fields
  (`animLog`, `observerLog`) record each invocation of `animateElement`
  so that "applied at most once" properties can be stated.
-/

namespace CVPortfolio

/-! ## DOM model -/

/-- A DOM element: id, class list, and enclosing section (`none` for
top-level elements such as the sections themselves or the nav menu).
`DOMTokenList` keeps class tokens unique, which the `addClass` guard
below reproduces. -/
structure Elem where
  id : String
  classes : List String
  parent : Option String
  deriving DecidableEq, Repr

/-- `element.classList.contains(c)`. -/
def hasClass (e : Elem) (c : String) : Bool :=
  e.classes.contains c

/-- `element.classList.add(c)`: appends the token only when absent. -/
def addClass (c : String) (e : Elem) : Elem :=
  if e.classes.contains c then e else { e with classes := e.classes ++ [c] }

/-- `element.classList.remove(c)`: drops the token. -/
def removeClass (c : String) (e : Elem) : Elem :=
  { e with classes := e.classes.filter (fun d => d != c) }

/-- An element matching the CSS selector `.section.active`. -/
def isActiveSection (e : Elem) : Bool :=
  hasClass e "section" && hasClass e "active"

/-- Apply `f` to the first element satisfying `p`, leaving the rest of the
document unchanged — the effect of mutating the result of a successful
`querySelector`/`getElementById` lookup. -/
def updateFirst (p : Elem → Bool) (f : Elem → Elem) : List Elem → List Elem
  | [] => []
  | e :: rest => if p e then f e :: rest else e :: updateFirst p f rest

/-! ## `CVApp` state

`this.state` of `CVApp` plus the DOM surface it mutates.  `hasAnimated`
models the `Set` of already-animated elements (by id).  `animLog` and
`observerLog` are instrumentation: `animLog` records every invocation of
`animateElement`, `observerLog` those made from the intersection-observer
callback. -/
structure NavState where
  dom : List Elem
  currentSection : String
  url : Option String
  isMenuOpen : Bool
  hasAnimated : List String
  animLog : List String
  observerLog : List String
  deriving DecidableEq, Repr

/-- The selector list observed/animated by `setupIntersectionObserver` and
`animateSection`. -/
def animatableClasses : List String :=
  ["timeline-item", "stat-item", "skill-item", "soft-skill-item",
   "certification-item", "info-card", "education-item"]

def isAnimatable (e : Elem) : Bool :=
  animatableClasses.any (fun c => hasClass e c)

/-- `CVApp.getAnimationClass`: timeline items slide in alternating from
the left/right according to their index among their siblings, stat and
soft-skill items scale in, everything else fades in. -/
def getAnimationClass (dom : List Elem) (e : Elem) : String :=
  if hasClass e "timeline-item" then
    let sibs := dom.filter (fun x => x.parent == e.parent)
    if sibs.findIdx (fun x => x.id == e.id) % 2 == 0 then
      "slide-in-left"
    else
      "slide-in-right"
  else if hasClass e "stat-item" || hasClass e "soft-skill-item" then
    "scale-in"
  else
    "fade-in"

/-- `CVApp.animateElement`: adds the computed animation class to the
element and is recorded in `animLog`.  (The nested skill-bar width timers
are not modelled; no claim concerns them.) -/
def animateElementById (eid : String) (st : NavState) : NavState :=
  match st.dom.find? (fun e => e.id == eid) with
  | none => st
  | some e =>
      { st with
        dom := updateFirst (fun x => x.id == eid)
                 (addClass (getAnimationClass st.dom e)) st.dom,
        animLog := st.animLog ++ [eid] }

/-- `CVApp.animateSection`: runs `animateElement` over every animatable
element inside the given section (staggered timers only delay the calls;
their order is the element order). -/
def animateSection (sid : String) (st : NavState) : NavState :=
  (st.dom.filter (fun e => e.parent == some sid && isAnimatable e)).foldl
    (fun s e => animateElementById e.id s) st

/-- `CVApp.updateURL`: `history.pushState` replaces the fragment with the
section id. -/
def updateURL (sid : String) (st : NavState) : NavState :=
  { st with url := some sid }

/-- `CVApp.showSection`: removes `active` from the current
`.section.active` element, then — only if `getElementById` finds the
target — adds `active` to it, records it as current, animates its
children and updates the URL. -/
def showSection (sid : String) (st : NavState) : NavState :=
  match (updateFirst isActiveSection (removeClass "active") st.dom).find?
      (fun e => e.id == sid) with
  | none => { st with dom := updateFirst isActiveSection (removeClass "active") st.dom }
  | some _ =>
      updateURL sid (animateSection sid
        { st with
          dom := updateFirst (fun e => e.id == sid) (addClass "active")
                   (updateFirst isActiveSection (removeClass "active") st.dom),
          currentSection := sid })

/-- `CVApp.closeMobileMenu`: deactivates the `.nav-menu` element and
clears the open flag (the toggle-icon swap and body overflow style are
not modelled). -/
def closeMobileMenu (st : NavState) : NavState :=
  { st with
    dom := updateFirst (fun e => hasClass e "nav-menu") (removeClass "active") st.dom,
    isMenuOpen := false }

/-- `CVApp.adjustMobileAnimations`: timeline items swap their slide-in
classes for `fade-in`. -/
def adjustMobileAnimations (st : NavState) : NavState :=
  { st with
    dom := st.dom.map (fun e =>
      if hasClass e "timeline-item" then
        addClass "fade-in" (removeClass "slide-in-right" (removeClass "slide-in-left" e))
      else e) }

/-- `CVApp.recalculateAnimations`: clears the seen-set and, at mobile
widths, adjusts timeline animations. -/
def recalculateAnimations (w : ℕ) (st : NavState) : NavState :=
  let st1 := { st with hasAnimated := [] }
  if w ≤ 768 then adjustMobileAnimations st1 else st1

/-- `CVApp.handleResize` with the post-resize `window.innerWidth`: closes
the mobile menu only when the new width exceeds 768, then recalculates
animations. -/
def handleResize (w : ℕ) (st : NavState) : NavState :=
  let st1 := if 768 < w ∧ st.isMenuOpen then closeMobileMenu st else st
  recalculateAnimations w st1

/-- The intersection-observer callback of `setupIntersectionObserver` for
one intersecting entry: animate and mark the element unless it is already
in the seen-set. -/
def observerCallback (eid : String) (st : NavState) : NavState :=
  if st.hasAnimated.contains eid then st
  else
    let st1 := animateElementById eid st
    { st1 with
      hasAnimated := st1.hasAnimated ++ [eid],
      observerLog := st1.observerLog ++ [eid] }

/-- Events driving the navigation/reveal machinery: an explicit
navigation to a section, or an element becoming visible (≥ 10%
intersection). -/
inductive NavEvent
  | navigate (sid : String)
  | intersect (eid : String)
  deriving DecidableEq, Repr

def navStep (ev : NavEvent) (st : NavState) : NavState :=
  match ev with
  | .navigate sid => showSection sid st
  | .intersect eid => observerCallback eid st

def navRun (evs : List NavEvent) (st : NavState) : NavState :=
  evs.foldl (fun s e => navStep e s) st

/-! ## Particle model (`CVAnimations.animateParticles`)

One particle's per-tick update, in source order: integrate the position,
invert velocity components at the canvas edges, attract toward the mouse
within radius 100, clamp the speed to 2.  `dist` and `speed` stand for
the two `Math.sqrt` results; theorems constrain them by the squared
equations. -/

structure Particle where
  x : ℚ
  y : ℚ
  vx : ℚ
  vy : ℚ
  deriving DecidableEq, Repr

/-- `particle.x += particle.vx; particle.y += particle.vy`. -/
def integrateParticle (p : Particle) : Particle :=
  { p with x := p.x + p.vx, y := p.y + p.vy }

/-- Boundary handling: the velocity component is inverted when the
position has crossed either edge; the position itself is not moved. -/
def reflectVelocity (w h : ℚ) (p : Particle) : Particle :=
  { p with
    vx := if p.x < 0 ∨ w < p.x then -p.vx else p.vx,
    vy := if p.y < 0 ∨ h < p.y then -p.vy else p.vy }

/-- Squared distance from the particle to the mouse. -/
def distToMouse2 (mx my : ℚ) (p : Particle) : ℚ :=
  (mx - p.x) ^ 2 + (my - p.y) ^ 2

/-- Squared velocity magnitude. -/
def speed2 (p : Particle) : ℚ :=
  p.vx ^ 2 + p.vy ^ 2

/-- Mouse attraction: within distance 100, add
`d * (100 - dist) / 100 * 0.0001` to each velocity component, where `d`
is the coordinate difference to the mouse. -/
def mouseAttraction (mx my dist : ℚ) (p : Particle) : Particle :=
  if dist < 100 then
    { p with
      vx := p.vx + (mx - p.x) * ((100 - dist) / 100) * (1 / 10000),
      vy := p.vy + (my - p.y) * ((100 - dist) / 100) * (1 / 10000) }
  else p

/-- Speed clamping: when the magnitude exceeds 2, rescale the velocity
vector to magnitude exactly 2. -/
def clampSpeed (speed : ℚ) (p : Particle) : Particle :=
  if 2 < speed then
    { p with vx := p.vx / speed * 2, vy := p.vy / speed * 2 }
  else p

/-- One full per-particle tick, stages in source order.  `dist` is the
`Math.sqrt` of the squared distance to the mouse after integration and
reflection; `speed` the `Math.sqrt` of the squared velocity magnitude
after attraction. -/
def particleTick (w h mx my dist speed : ℚ) (p : Particle) : Particle :=
  clampSpeed speed (mouseAttraction mx my dist (reflectVelocity w h (integrateParticle p)))

/-- Position inside the canvas rectangle. -/
def inBounds (w h : ℚ) (p : Particle) : Prop :=
  0 ≤ p.x ∧ p.x ≤ w ∧ 0 ≤ p.y ∧ p.y ≤ h

instance (w h : ℚ) (p : Particle) : Decidable (inBounds w h p) := by
  unfold inBounds; infer_instance

/-- The tick applies boundary reflection exactly when the integrated
position has crossed an edge. -/
def reflectionApplied (w h : ℚ) (p : Particle) : Prop :=
  ((integrateParticle p).x < 0 ∨ w < (integrateParticle p).x) ∨
    ((integrateParticle p).y < 0 ∨ h < (integrateParticle p).y)

instance (w h : ℚ) (p : Particle) : Decidable (reflectionApplied w h p) := by
  unfold reflectionApplied; infer_instance

/-- The pairwise connection check of `animateParticles`: for a pair at
distance `dist`, a line is drawn exactly when `dist < 80`, with stroke
opacity `(80 - dist) / 80 * 0.2`. -/
def drawConnectionOpacity (dist : ℚ) : Option ℚ :=
  if dist < 80 then some ((80 - dist) / 80 * (2 / 10)) else none

/-! ## `CVAnimations` startup model

`init` is modelled as the list of externally visible effects it performs,
together with the JavaScript error aborting it, if any.  The reduced-
motion branch calls `this.setupEssentialAnimations()`; the method lookup
is modelled against the list of methods the class actually defines. -/

/-- The methods defined on the `CVAnimations` class in the source. -/
def cvAnimationsMethods : List String :=
  ["constructor", "init", "setupParticleSystem", "resizeCanvas",
   "createParticles", "animateParticles", "setupTextAnimations",
   "typeWriter", "setupHoverEffects", "addShineEffect", "addTiltEffect",
   "addRippleEffect", "setupCursorEffects", "setupScrollAnimations",
   "setupTypingEffect", "typeText", "destroy"]

inductive AnimEffect
  | consoleLog (msg : String)
  | canvasCreated
  | particleCreated
  | rafScheduled
  | timerScheduled (purpose : String) (delayMs : ℕ)
  | listenerAdded (target : String) (eventName : String)
  deriving DecidableEq, Repr

/-- Environment `init` runs against: viewport width, whether
`.profile-details .name` exists (with its text), and the sizes of the
query-selected element collections. -/
structure AnimEnv where
  innerWidth : ℕ
  nameElementText : Option (List Char)
  contactItemCount : ℕ
  cardCount : ℕ
  buttonCount : ℕ
  deriving DecidableEq, Repr

/-- `createParticles`: `Math.min(50, Math.floor(window.innerWidth / 20))`
particles are pushed. -/
def particleCountOf (innerWidth : ℕ) : ℕ :=
  min 50 (innerWidth / 20)

/-- Effects of `setupParticleSystem`: the canvas, the particles, the
first animation frame, and the mouse/resize listeners. -/
def setupParticleSystemEffects (env : AnimEnv) : List AnimEffect :=
  [.canvasCreated] ++
    List.replicate (particleCountOf env.innerWidth) .particleCreated ++
    [.rafScheduled,
     .listenerAdded "document" "mousemove",
     .listenerAdded "window" "resize"]

/-- Timers scheduled by `typeWriter` when invoked with reduced motion
off: the single 1000 ms kick-off timer (subsequent per-character timers
are chained from it). -/
def typeWriterTimerEffects (reduced : Bool) : List AnimEffect :=
  if reduced then [] else [.timerScheduled "typewriter" 1000]

/-- Effects of `setupTextAnimations`: the name typewriter (when the name
element exists) and one staggered fade-in timer per contact item, at
`500 + index * 150` ms. -/
def setupTextAnimationsEffects (reduced : Bool) (env : AnimEnv) : List AnimEffect :=
  (match env.nameElementText with
   | some _ => typeWriterTimerEffects reduced
   | none => []) ++
    (List.range env.contactItemCount).map
      (fun i => .timerScheduled "contact-fade-in" (500 + i * 150))

/-- Effects of `setupHoverEffects`: listeners per card and per download
button. -/
def setupHoverEffectsEffects (env : AnimEnv) : List AnimEffect :=
  (List.range env.cardCount).flatMap
      (fun _ => [.listenerAdded "card" "mouseenter",
                 .listenerAdded "card" "mousemove",
                 .listenerAdded "card" "mouseleave"]) ++
    (List.range env.buttonCount).map (fun _ => .listenerAdded "button" "click")

/-- Effects of `setupCursorEffects`: skipped entirely at mobile widths,
otherwise the custom-cursor mousemove listener (per-element hover
listeners are summarised by it). -/
def setupCursorEffectsEffects (env : AnimEnv) : List AnimEffect :=
  if env.innerWidth ≤ 768 then []
  else [.listenerAdded "document" "mousemove"]

/-- Effects of `setupScrollAnimations`: the parallax scroll listener. -/
def setupScrollAnimationsEffects : List AnimEffect :=
  [.listenerAdded "window" "scroll"]

/-- Effects of `setupTypingEffect`: observing descriptions schedules no
timer at startup (typing starts only on intersection). -/
def setupTypingEffectEffects : List AnimEffect :=
  []

/-- Outcome of running a method body: the effects performed before
completion or abort, and the error aborting it, if any. -/
structure RunResult where
  effects : List AnimEffect
  jsError : Option String
  deriving DecidableEq, Repr

/-- `CVAnimations.init`.  With reduced motion set it logs and then calls
`this.setupEssentialAnimations()`; if that method is not defined on the
class the call raises a `TypeError` and nothing else runs.  Otherwise it
runs the six setup routines. -/
def initRun (reducedMotion : Bool) (env : AnimEnv) : RunResult :=
  if reducedMotion then
    { effects := [.consoleLog "Reduced motion detected - skipping advanced animations"],
      jsError :=
        if cvAnimationsMethods.contains "setupEssentialAnimations" then none
        else some "TypeError: this.setupEssentialAnimations is not a function" }
  else
    { effects :=
        [.consoleLog "Initializing advanced animation systems..."] ++
          setupParticleSystemEffects env ++
          setupTextAnimationsEffects false env ++
          setupHoverEffectsEffects env ++
          setupCursorEffectsEffects env ++
          setupScrollAnimationsEffects ++
          setupTypingEffectEffects,
      jsError := none }

/-- The `DOMContentLoaded` handler assigns `window.CVAnimations` from
`new CVAnimations()`; the assignment happens only if the constructor
(which ends by calling `init`) returns without throwing. -/
def windowCVAnimationsAssigned (reducedMotion : Bool) (env : AnimEnv) : Bool :=
  (initRun reducedMotion env).jsError.isNone

def countParticlesCreated (effects : List AnimEffect) : ℕ :=
  effects.count .particleCreated

def isTimerEffect : AnimEffect → Bool
  | .timerScheduled _ _ => true
  | _ => false

def countTimersScheduled (effects : List AnimEffect) : ℕ :=
  (effects.filter isTimerEffect).length

/-! ## Typewriter effects (`typeWriter` / `typeText`)

Both effects clear the element's text and re-append `text.charAt(i)` for
`i = 0, 1, …` until `i < text.length` fails.  The model computes the
final `textContent`; text is a list of UTF-16 code units. -/

/-- The `typing` closure: starting at index `i` with the element holding
`acc`, append characters until the end of `text`. -/
def typingFrom (text : List Char) : ℕ → List Char → List Char
  | i, acc =>
    if h : i < text.length then
      typingFrom text (i + 1) (acc ++ [text.get ⟨i, h⟩])
    else acc
  termination_by i _ => text.length - i

/-- Final `textContent` after `typeWriter(element, text, speed)` has run
to completion.  With reduced motion the text is assigned directly. -/
def typeWriterFinal (reducedMotion : Bool) (text : List Char) : List Char :=
  if reducedMotion then text else typingFrom text 0 []

/-- Final `textContent` after `typeText(element)` has run to completion,
given the element's original text.  With reduced motion the method
returns before touching the element. -/
def typeTextFinal (reducedMotion : Bool) (original : List Char) : List Char :=
  if reducedMotion then original else typingFrom original 0 []

/-! ## Concrete inputs for witnesses and counterexamples -/

/-- A small document: three sections (`perfil` active), one animatable
element in `perfil` and one in `educacion`, and the mobile nav menu,
currently open. -/
def demoDom : List Elem :=
  [⟨"perfil", ["section", "active"], none⟩,
   ⟨"experiencia", ["section"], none⟩,
   ⟨"educacion", ["section"], none⟩,
   ⟨"stat-1", ["stat-item"], some "perfil"⟩,
   ⟨"edu-1", ["education-item"], some "educacion"⟩,
   ⟨"menu", ["nav-menu", "active"], none⟩]

def demoState : NavState :=
  { dom := demoDom,
    currentSection := "perfil",
    url := none,
    isMenuOpen := true,
    hasAnimated := [],
    animLog := [],
    observerLog := [] }

/-- Particle used in the boundary-reflection counterexample: at the left
edge, drifting left. -/
def reflectDemoParticle : Particle :=
  ⟨0, 1, -(1 / 10), 0⟩

/-- Particle used in the speed-clamp witness: velocity (3, 4), speed 5. -/
def fastDemoParticle : Particle :=
  ⟨10, 10, 3, 4⟩

def demoEnv : AnimEnv :=
  { innerWidth := 1200,
    nameElementText := some "Janover Gonzalo Saldana Vela".toList,
    contactItemCount := 4,
    cardCount := 6,
    buttonCount := 1 }

/-- Event sequence navigating twice to the same section. -/
def c3Events : List NavEvent :=
  [.navigate "educacion", .navigate "educacion"]

/-- Well-formedness invariant of the navigation state: the seen-set holds
no duplicates, observer-driven reveals are recorded in the seen-set, and
every element's class list is duplicate-free (as `DOMTokenList`
guarantees). -/
def NavInv (st : NavState) : Prop :=
  st.hasAnimated.Nodup ∧ st.observerLog.Nodup ∧
    (∀ eid ∈ st.observerLog, eid ∈ st.hasAnimated) ∧
    (∀ e ∈ st.dom, e.classes.Nodup)

instance (st : NavState) : Decidable (NavInv st) := by
  unfold NavInv; infer_instance

/-! ## Class-list and `updateFirst` lemmas -/

theorem hasClass_iff (e : Elem) (c : String) : hasClass e c = true ↔ c ∈ e.classes := by
  simp [hasClass]

theorem addClass_id_eq (c : String) (e : Elem) : (addClass c e).id = e.id := by
  unfold addClass; split <;> rfl

theorem removeClass_id_eq (c : String) (e : Elem) : (removeClass c e).id = e.id :=
  rfl

theorem hasClass_removeClass_self (c : String) (e : Elem) :
    hasClass (removeClass c e) c = false := by
  rw [Bool.eq_false_iff]
  intro h
  have hmem := (hasClass_iff _ _).mp h
  simp [removeClass, List.mem_filter] at hmem

theorem hasClass_removeClass_ne (c d : String) (e : Elem) (hdc : d ≠ c) :
    hasClass (removeClass c e) d = hasClass e d := by
  cases hE : hasClass e d
  · rw [Bool.eq_false_iff]
    intro h
    have hmem := (hasClass_iff _ _).mp h
    simp only [removeClass, List.mem_filter] at hmem
    have : hasClass e d = true := (hasClass_iff _ _).mpr hmem.1
    rw [hE] at this
    exact Bool.false_ne_true this
  · rw [hasClass_iff]
    have hmem := (hasClass_iff _ _).mp hE
    simp only [removeClass, List.mem_filter]
    exact ⟨hmem, by simp [hdc]⟩

theorem hasClass_addClass_self (c : String) (e : Elem) :
    hasClass (addClass c e) c = true := by
  unfold addClass
  split
  · rename_i h; exact h
  · rw [hasClass_iff]; simp

theorem hasClass_addClass_ne (c d : String) (e : Elem) (hcd : c ≠ d) :
    hasClass (addClass c e) d = hasClass e d := by
  unfold addClass
  split
  · rfl
  · cases hE : hasClass e d
    · rw [Bool.eq_false_iff]
      intro h
      have hmem := (hasClass_iff _ _).mp h
      simp only [List.mem_append, List.mem_singleton] at hmem
      rcases hmem with hm | hm
      · have : hasClass e d = true := (hasClass_iff _ _).mpr hm
        rw [hE] at this
        exact Bool.false_ne_true this
      · exact hcd hm.symm
    · rw [hasClass_iff]
      have hmem := (hasClass_iff _ _).mp hE
      simp [hmem]

theorem isActiveSection_removeClass_active (e : Elem) :
    isActiveSection (removeClass "active" e) = false := by
  unfold isActiveSection
  rw [hasClass_removeClass_self, Bool.and_false]

theorem isActiveSection_addClass (c : String) (e : Elem)
    (h1 : c ≠ "section") (h2 : c ≠ "active") :
    isActiveSection (addClass c e) = isActiveSection e := by
  unfold isActiveSection
  rw [hasClass_addClass_ne c "section" e h1, hasClass_addClass_ne c "active" e h2]

theorem updateFirst_map_id (p : Elem → Bool) (f : Elem → Elem)
    (hf : ∀ e, (f e).id = e.id) (l : List Elem) :
    (updateFirst p f l).map Elem.id = l.map Elem.id := by
  induction l with
  | nil => rfl
  | cons a l ih =>
      simp only [updateFirst]
      split
      · simp [hf]
      · simp [ih]

theorem filter_map_id_updateFirst (p : Elem → Bool) (f : Elem → Elem)
    (hact : ∀ e, isActiveSection (f e) = isActiveSection e)
    (hid : ∀ e, (f e).id = e.id) (l : List Elem) :
    ((updateFirst p f l).filter isActiveSection).map Elem.id =
      (l.filter isActiveSection).map Elem.id := by
  induction l with
  | nil => rfl
  | cons a l ih =>
      simp only [updateFirst]
      split
      · simp only [List.filter_cons, hact a]
        cases hA : isActiveSection a <;> simp [hid]
      · simp only [List.filter_cons]
        cases hA : isActiveSection a <;> simp [ih]

theorem updateFirst_forall (p : Elem → Bool) (f : Elem → Elem) (Q : Elem → Prop)
    (hQ : ∀ x, Q x → Q (f x)) (l : List Elem)
    (h : ∀ x ∈ l, Q x) : ∀ x ∈ updateFirst p f l, Q x := by
  induction l with
  | nil => intro x hx; simp [updateFirst] at hx
  | cons a l ih =>
      intro x hx
      simp only [updateFirst] at hx
      split at hx
      · rcases List.mem_cons.mp hx with hxa | hxl
        · subst hxa; exact hQ _ (h _ (List.mem_cons_self _ _))
        · exact h x (List.mem_cons_of_mem _ hxl)
      · rcases List.mem_cons.mp hx with hxa | hxl
        · subst hxa; exact h _ (List.mem_cons_self _ _)
        · exact ih (fun y hy => h y (List.mem_cons_of_mem _ hy)) x hxl

theorem updateFirst_exists (p : Elem → Bool) (f : Elem → Elem) (Q : Elem → Prop)
    (hQ : ∀ x, Q x → Q (f x)) (l : List Elem) (y : Elem)
    (hy : y ∈ l) (hQy : Q y) : ∃ x ∈ updateFirst p f l, Q x := by
  induction l with
  | nil => cases hy
  | cons a l ih =>
      simp only [updateFirst]
      split
      · rcases List.mem_cons.mp hy with rfl | hyl
        · exact ⟨f y, List.mem_cons_self _ _, hQ y hQy⟩
        · exact ⟨y, List.mem_cons_of_mem _ hyl, hQy⟩
      · rcases List.mem_cons.mp hy with rfl | hyl
        · exact ⟨y, List.mem_cons_self _ _, hQy⟩
        · obtain ⟨x, hx, hQx⟩ := ih hyl
          exact ⟨x, List.mem_cons_of_mem _ hx, hQx⟩

theorem find?_updateFirst (p : Elem → Bool) (f : Elem → Elem)
    (hf : ∀ e, p e = true → p (f e) = true) (l : List Elem) :
    (updateFirst p f l).find? p = (l.find? p).map f := by
  induction l with
  | nil => rfl
  | cons a l ih =>
      simp only [updateFirst]
      split
      · rename_i hpa
        rw [List.find?_cons_of_pos _ (hf a hpa), List.find?_cons_of_pos _ hpa]
        rfl
      · rename_i hpa
        rw [List.find?_cons_of_neg _ hpa, List.find?_cons_of_neg _ hpa, ih]

theorem classes_nodup_addClass (c : String) (e : Elem) (h : e.classes.Nodup) :
    (addClass c e).classes.Nodup := by
  unfold addClass
  split
  · exact h
  · rename_i hc
    have hnm : c ∉ e.classes := fun hm => hc ((hasClass_iff e c).mpr hm)
    simp [List.nodup_append, h, hnm]

theorem classes_nodup_removeClass (c : String) (e : Elem) (h : e.classes.Nodup) :
    (removeClass c e).classes.Nodup :=
  h.filter _

/-! ## Typewriter theorems -/

theorem typingFrom_spec (text : List Char) :
    ∀ (i : ℕ) (acc : List Char), typingFrom text i acc = acc ++ text.drop i := by
  have key : ∀ (n i : ℕ) (acc : List Char), text.length - i ≤ n →
      typingFrom text i acc = acc ++ text.drop i := by
    intro n
    induction n with
    | zero =>
        intro i acc h
        rw [typingFrom]
        have hni : ¬ i < text.length := by omega
        rw [dif_neg hni, List.drop_of_length_le (by omega), List.append_nil]
    | succ n ih =>
        intro i acc h
        rw [typingFrom]
        by_cases hi : i < text.length
        · rw [dif_pos hi, ih (i + 1) _ (by omega),
            List.drop_eq_getElem_cons hi, List.append_assoc]
          simp [List.get_eq_getElem]
        · rw [dif_neg hi, List.drop_of_length_le (by omega), List.append_nil]
  intro i acc
  exact key (text.length - i) i acc le_rfl

/-- C10: the typewriter effects are round trips on text content — after
`typeWriter` (or `typeText`) runs to completion (in either the reduced or
the normal mode), the element's `textContent` equals the text the effect
started from; no character is lost, duplicated or reordered. -/
theorem typewriter_round_trip :
    ∀ (reducedMotion : Bool) (text : List Char),
      typeWriterFinal reducedMotion text = text ∧
      typeTextFinal reducedMotion text = text := by
  intro r text
  unfold typeWriterFinal typeTextFinal
  cases r <;> simp [typingFrom_spec]

/-! ## Particle theorems -/

theorem clampSpeed_x (s : ℚ) (p : Particle) : (clampSpeed s p).x = p.x := by
  unfold clampSpeed; split <;> rfl

theorem clampSpeed_y (s : ℚ) (p : Particle) : (clampSpeed s p).y = p.y := by
  unfold clampSpeed; split <;> rfl

theorem mouseAttraction_x (mx my d : ℚ) (p : Particle) :
    (mouseAttraction mx my d p).x = p.x := by
  unfold mouseAttraction; split <;> rfl

theorem mouseAttraction_y (mx my d : ℚ) (p : Particle) :
    (mouseAttraction mx my d p).y = p.y := by
  unfold mouseAttraction; split <;> rfl

theorem reflectVelocity_x (w h : ℚ) (p : Particle) : (reflectVelocity w h p).x = p.x :=
  rfl

theorem reflectVelocity_y (w h : ℚ) (p : Particle) : (reflectVelocity w h p).y = p.y :=
  rfl

theorem particleTick_x (w h mx my dist speed : ℚ) (p : Particle) :
    (particleTick w h mx my dist speed p).x = p.x + p.vx := by
  unfold particleTick
  rw [clampSpeed_x, mouseAttraction_x, reflectVelocity_x]
  rfl

theorem particleTick_y (w h mx my dist speed : ℚ) (p : Particle) :
    (particleTick w h mx my dist speed p).y = p.y + p.vy := by
  unfold particleTick
  rw [clampSpeed_y, mouseAttraction_y, reflectVelocity_y]
  rfl

/-- C5: after one full tick (integration, reflection, mouse attraction,
then speed clamping) the particle's speed is at most the configured
maximum 2 — stated on squares: `vx² + vy² ≤ 2²` — for any pre-tick
velocity magnitude.  `speed` is the exact value of
`Math.sqrt(vx² + vy²)` computed after the attraction stage. -/
theorem particle_speed_clamped (w h mx my dist speed : ℚ) (p : Particle)
    (hs0 : 0 ≤ speed)
    (hs : speed ^ 2 =
      speed2 (mouseAttraction mx my dist (reflectVelocity w h (integrateParticle p)))) :
    speed2 (particleTick w h mx my dist speed p) ≤ 4 := by
  set q := mouseAttraction mx my dist (reflectVelocity w h (integrateParticle p)) with hq
  simp only [speed2] at hs
  unfold particleTick
  rw [← hq]
  unfold clampSpeed
  split
  · rename_i hlt
    have hne : speed ≠ 0 := ne_of_gt (by linarith)
    have hval : (q.vx / speed * 2) ^ 2 + (q.vy / speed * 2) ^ 2 = 4 := by
      field_simp
      linear_combination (-4 : ℚ) * hs
    simp only [speed2]
    exact le_of_eq hval
  · rename_i hle
    push_neg at hle
    simp only [speed2]
    nlinarith [hs]

/-- Witness for C5 at a concrete fast particle: pre-tick velocity (3, 4)
of magnitude 5 gets clamped, leaving squared speed exactly 4. -/
theorem particle_speed_clamped_witness :
    (0 : ℚ) ≤ 5 ∧
    (5 : ℚ) ^ 2 =
      speed2 (mouseAttraction 313 414 500 (reflectVelocity 1000 1000 (integrateParticle fastDemoParticle))) ∧
    speed2 (particleTick 1000 1000 313 414 500 5 fastDemoParticle) ≤ 4 :=
  ⟨by norm_num,
   by norm_num [speed2, mouseAttraction, reflectVelocity, integrateParticle, fastDemoParticle],
   particle_speed_clamped 1000 1000 313 414 500 5 fastDemoParticle (by norm_num)
     (by norm_num [speed2, mouseAttraction, reflectVelocity, integrateParticle, fastDemoParticle])⟩

/-- C4 counterexample: the particle at (0, 1) with velocity (−1/10, 0) on
a 1000×1000 canvas starts inside the bounds and triggers boundary
reflection on this tick, yet its post-tick position x = −1/10 lies
outside [0, canvasWidth] — reflection inverts the velocity without
moving the position back, so the claim as stated is false. -/
theorem particle_reflection_counterexample :
    inBounds 1000 1000 reflectDemoParticle ∧
    reflectionApplied 1000 1000 reflectDemoParticle ∧
    (0 : ℚ) ≤ 500 ∧
    (500 : ℚ) ^ 2 =
      distToMouse2 (2999 / 10) 401 (reflectVelocity 1000 1000 (integrateParticle reflectDemoParticle)) ∧
    (0 : ℚ) ≤ 1 / 10 ∧
    ((1 : ℚ) / 10) ^ 2 =
      speed2 (mouseAttraction (2999 / 10) 401 500 (reflectVelocity 1000 1000 (integrateParticle reflectDemoParticle))) ∧
    ¬ inBounds 1000 1000 (particleTick 1000 1000 (2999 / 10) 401 500 (1 / 10) reflectDemoParticle) := by
  norm_num [inBounds, reflectionApplied, particleTick, clampSpeed, mouseAttraction,
    reflectVelocity, integrateParticle, speed2, distToMouse2, reflectDemoParticle]

/-- C4 amended: immediately after a tick started from an in-bounds
position, the particle's position may have left the canvas, but by at
most one velocity step — it lies within
[−|vx|, w + |vx|] × [−|vy|, h + |vy|] — and every velocity component the
reflection inverted now points back toward the canvas interior. -/
theorem particle_reflection_amended (w h mx my dist speed : ℚ) (p : Particle)
    (hpre : inBounds w h p) :
    (particleTick w h mx my dist speed p).x = p.x + p.vx ∧
    (particleTick w h mx my dist speed p).y = p.y + p.vy ∧
    -|p.vx| ≤ (particleTick w h mx my dist speed p).x ∧
    (particleTick w h mx my dist speed p).x ≤ w + |p.vx| ∧
    -|p.vy| ≤ (particleTick w h mx my dist speed p).y ∧
    (particleTick w h mx my dist speed p).y ≤ h + |p.vy| ∧
    (p.x + p.vx < 0 → 0 ≤ (reflectVelocity w h (integrateParticle p)).vx) ∧
    (w < p.x + p.vx → (reflectVelocity w h (integrateParticle p)).vx ≤ 0) ∧
    (p.y + p.vy < 0 → 0 ≤ (reflectVelocity w h (integrateParticle p)).vy) ∧
    (h < p.y + p.vy → (reflectVelocity w h (integrateParticle p)).vy ≤ 0) := by
  obtain ⟨hx0, hxw, hy0, hyh⟩ := hpre
  have hax := neg_abs_le p.vx
  have hax' := le_abs_self p.vx
  have hay := neg_abs_le p.vy
  have hay' := le_abs_self p.vy
  refine ⟨particleTick_x .., particleTick_y .., ?_, ?_, ?_, ?_, ?_, ?_, ?_, ?_⟩
  · rw [particleTick_x]; linarith
  · rw [particleTick_x]; linarith
  · rw [particleTick_y]; linarith
  · rw [particleTick_y]; linarith
  · intro hlt
    unfold reflectVelocity integrateParticle
    simp only
    rw [if_pos (Or.inl (show p.x + p.vx < 0 from hlt))]
    have : p.vx < 0 := by linarith
    linarith
  · intro hgt
    unfold reflectVelocity integrateParticle
    simp only
    rw [if_pos (Or.inr (show w < p.x + p.vx from hgt))]
    have : 0 < p.vx := by linarith
    linarith
  · intro hlt
    unfold reflectVelocity integrateParticle
    simp only
    rw [if_pos (Or.inl (show p.y + p.vy < 0 from hlt))]
    have : p.vy < 0 := by linarith
    linarith
  · intro hgt
    unfold reflectVelocity integrateParticle
    simp only
    rw [if_pos (Or.inr (show h < p.y + p.vy from hgt))]
    have : 0 < p.vy := by linarith
    linarith

/-- Witness for the amended C4 at the reflecting particle. -/
theorem particle_reflection_amended_witness :
    inBounds 1000 1000 reflectDemoParticle ∧
    ((particleTick 1000 1000 (2999 / 10) 401 500 (1 / 10) reflectDemoParticle).x =
        reflectDemoParticle.x + reflectDemoParticle.vx ∧
      (particleTick 1000 1000 (2999 / 10) 401 500 (1 / 10) reflectDemoParticle).y =
        reflectDemoParticle.y + reflectDemoParticle.vy ∧
      -|reflectDemoParticle.vx| ≤
        (particleTick 1000 1000 (2999 / 10) 401 500 (1 / 10) reflectDemoParticle).x ∧
      (particleTick 1000 1000 (2999 / 10) 401 500 (1 / 10) reflectDemoParticle).x ≤
        1000 + |reflectDemoParticle.vx| ∧
      -|reflectDemoParticle.vy| ≤
        (particleTick 1000 1000 (2999 / 10) 401 500 (1 / 10) reflectDemoParticle).y ∧
      (particleTick 1000 1000 (2999 / 10) 401 500 (1 / 10) reflectDemoParticle).y ≤
        1000 + |reflectDemoParticle.vy| ∧
      (reflectDemoParticle.x + reflectDemoParticle.vx < 0 →
        0 ≤ (reflectVelocity 1000 1000 (integrateParticle reflectDemoParticle)).vx) ∧
      (1000 < reflectDemoParticle.x + reflectDemoParticle.vx →
        (reflectVelocity 1000 1000 (integrateParticle reflectDemoParticle)).vx ≤ 0) ∧
      (reflectDemoParticle.y + reflectDemoParticle.vy < 0 →
        0 ≤ (reflectVelocity 1000 1000 (integrateParticle reflectDemoParticle)).vy) ∧
      (1000 < reflectDemoParticle.y + reflectDemoParticle.vy →
        (reflectVelocity 1000 1000 (integrateParticle reflectDemoParticle)).vy ≤ 0)) :=
  ⟨by norm_num [inBounds, reflectDemoParticle],
   particle_reflection_amended 1000 1000 (2999 / 10) 401 500 (1 / 10) reflectDemoParticle
     (by norm_num [inBounds, reflectDemoParticle])⟩

/-- C8: for a particle pair at exact distance `dist`, the connection
check draws a line exactly when `dist < 80`, with stroke opacity
`(80 − dist) / 80 × 0.2`; at distance 40 the opacity is 0.1 = 1/10, and
no line is drawn at distance ≥ 80. -/
theorem connection_opacity (p q : Particle) (dist : ℚ)
    (hd0 : 0 ≤ dist)
    (hd : dist ^ 2 = (p.x - q.x) ^ 2 + (p.y - q.y) ^ 2) :
    (dist < 80 → drawConnectionOpacity dist = some ((80 - dist) / 80 * (2 / 10))) ∧
    (80 ≤ dist → drawConnectionOpacity dist = none) ∧
    (dist = 40 → drawConnectionOpacity dist = some (1 / 10)) := by
  refine ⟨fun hlt => ?_, fun hge => ?_, fun h40 => ?_⟩
  · unfold drawConnectionOpacity
    rw [if_pos hlt]
  · unfold drawConnectionOpacity
    rw [if_neg (not_lt.mpr hge)]
  · subst h40
    unfold drawConnectionOpacity
    rw [if_pos (by norm_num)]
    norm_num

/-- Witness for C8 at two particles at Euclidean distance 40
(offsets 24 and 32, since 24² + 32² = 40²). -/
theorem connection_opacity_witness :
    (0 : ℚ) ≤ 40 ∧
    (40 : ℚ) ^ 2 =
      ((0 : ℚ) - 24) ^ 2 + ((0 : ℚ) - 32) ^ 2 ∧
    ((40 : ℚ) < 80 → drawConnectionOpacity 40 = some ((80 - 40) / 80 * (2 / 10))) ∧
    ((80 : ℚ) ≤ 40 → drawConnectionOpacity 40 = none) ∧
    ((40 : ℚ) = 40 → drawConnectionOpacity 40 = some (1 / 10)) :=
  ⟨by norm_num, by norm_num,
   connection_opacity ⟨0, 0, 0, 0⟩ ⟨24, 32, 0, 0⟩ 40 (by norm_num) (by norm_num)⟩

/-! ## `CVAnimations` startup theorems -/

/-- C6 counterexample: with reduced motion set, `init` does not run a
minimal no-op setup to completion — the call to
`this.setupEssentialAnimations()` raises a `TypeError` because the class
defines no such method, so the claim's "only minimal/no-op setup runs"
conjunct is false. -/
theorem reduced_motion_init_throws :
    (initRun true demoEnv).jsError =
      some "TypeError: this.setupEssentialAnimations is not a function" := by
  decide

/-- C6 amended: if the reduced-motion preference is set at `CVAnimations`
initialization then zero particles are ever created and zero one-shot
decorative timers are ever scheduled — however `init` does not complete
minimal setup; it aborts with a `TypeError` (see C9) after only a console
log. -/
theorem reduced_motion_no_particles_no_timers (env : AnimEnv) :
    countParticlesCreated (initRun true env).effects = 0 ∧
    countTimersScheduled (initRun true env).effects = 0 := by
  unfold initRun
  rw [if_pos rfl]
  constructor <;> decide

/-- C9: `CVAnimations.init` invokes `this.setupEssentialAnimations()` in
the reduced-motion branch, but no such method is defined on the class, so
the constructor raises a type error and `window.CVAnimations` is never
assigned. -/
theorem setupEssentialAnimations_undefined :
    cvAnimationsMethods.contains "setupEssentialAnimations" = false ∧
    ∀ env : AnimEnv,
      (initRun true env).jsError.isSome = true ∧
      windowCVAnimationsAssigned true env = false := by
  refine ⟨by decide, fun env => ⟨?_, ?_⟩⟩
  · unfold initRun
    rw [if_pos rfl]
    decide
  · unfold windowCVAnimationsAssigned initRun
    rw [if_pos rfl]
    decide

/-! ## Navigation lemmas -/

theorem string_contains_iff (l : List String) (c : String) : l.contains c = true ↔ c ∈ l := by
  simp

theorem removeActive_filter_eq_nil (l : List Elem)
    (h : (l.filter isActiveSection).length ≤ 1) :
    (updateFirst isActiveSection (removeClass "active") l).filter isActiveSection = [] := by
  induction l with
  | nil => rfl
  | cons a l ih =>
      simp only [updateFirst]
      split
      · rename_i ha
        have hrest : l.filter isActiveSection = [] := by
          rw [List.filter_cons_of_pos ha] at h
          simp only [List.length_cons] at h
          exact List.length_eq_zero.mp (by omega)
        rw [List.filter_cons_of_neg (by simp [isActiveSection_removeClass_active])]
        exact hrest
      · rename_i ha
        rw [List.filter_cons_of_neg ha]
        apply ih
        rw [List.filter_cons_of_neg ha] at h
        exact h

theorem addActive_filter (l : List Elem) (S : String)
    (h0 : l.filter isActiveSection = [])
    (hids : (l.map Elem.id).Nodup)
    (y : Elem) (hy : y ∈ l) (hyid : y.id = S) (hysec : hasClass y "section" = true) :
    ((updateFirst (fun e => e.id == S) (addClass "active") l).filter
        isActiveSection).map Elem.id = [S] := by
  induction l with
  | nil => cases hy
  | cons a l ih =>
      have hsplit : isActiveSection a = false ∧ l.filter isActiveSection = [] := by
        by_cases hA : isActiveSection a = true
        · rw [List.filter_cons_of_pos hA] at h0
          simp at h0
        · rw [List.filter_cons_of_neg hA] at h0
          exact ⟨Bool.eq_false_iff.mpr hA, h0⟩
      simp only [updateFirst]
      split
      · rename_i hpa
        have haid : a.id = S := by simpa using hpa
        have hasec : hasClass a "section" = true := by
          rcases List.mem_cons.mp hy with hya | hyl
          · exact hya ▸ hysec
          · exfalso
            have hmemid : y.id ∈ l.map Elem.id := List.mem_map_of_mem _ hyl
            rw [hyid, ← haid] at hmemid
            exact (List.nodup_cons.mp hids).1 hmemid
        have hact : isActiveSection (addClass "active" a) = true := by
          unfold isActiveSection
          rw [hasClass_addClass_ne "active" "section" a (by decide),
            hasClass_addClass_self, hasec]
          rfl
        rw [List.filter_cons_of_pos hact, hsplit.2]
        simp [addClass_id_eq, haid]
      · rename_i hpa
        have haS : ¬ (a.id = S) := by simpa using hpa
        have hyl : y ∈ l := by
          rcases List.mem_cons.mp hy with hya | hyl
          · exact absurd (hya ▸ hyid) haS
          · exact hyl
        rw [List.filter_cons_of_neg (by simp [hsplit.1])]
        exact ih hsplit.2 (List.nodup_cons.mp hids).2 hyl

theorem getAnimationClass_ne_section (dom : List Elem) (e : Elem) :
    getAnimationClass dom e ≠ "section" := by
  simp only [getAnimationClass]
  split_ifs <;> decide

theorem getAnimationClass_ne_active (dom : List Elem) (e : Elem) :
    getAnimationClass dom e ≠ "active" := by
  simp only [getAnimationClass]
  split_ifs <;> decide

theorem animateElementById_activeFilter (eid : String) (st : NavState) :
    ((animateElementById eid st).dom.filter isActiveSection).map Elem.id =
      (st.dom.filter isActiveSection).map Elem.id := by
  unfold animateElementById
  split
  · rfl
  · rename_i e heq
    exact filter_map_id_updateFirst _ _
      (fun x => isActiveSection_addClass _ x
        (getAnimationClass_ne_section st.dom e) (getAnimationClass_ne_active st.dom e))
      (fun x => addClass_id_eq _ x) st.dom

theorem animateElementById_fields (eid : String) (st : NavState) :
    (animateElementById eid st).currentSection = st.currentSection ∧
    (animateElementById eid st).url = st.url ∧
    (animateElementById eid st).isMenuOpen = st.isMenuOpen ∧
    (animateElementById eid st).hasAnimated = st.hasAnimated ∧
    (animateElementById eid st).observerLog = st.observerLog := by
  unfold animateElementById
  split <;> exact ⟨rfl, rfl, rfl, rfl, rfl⟩

theorem foldl_animate_preserve {α : Type} (P : NavState → α)
    (hP : ∀ eid st, P (animateElementById eid st) = P st)
    (children : List Elem) :
    ∀ st : NavState, P (children.foldl (fun s e => animateElementById e.id s) st) = P st := by
  induction children with
  | nil => intro st; rfl
  | cons c cs ih =>
      intro st
      simp only [List.foldl_cons]
      rw [ih, hP]

theorem foldl_animate_pred (P : NavState → Prop)
    (hP : ∀ eid st, P st → P (animateElementById eid st))
    (children : List Elem) :
    ∀ st : NavState, P st → P (children.foldl (fun s e => animateElementById e.id s) st) := by
  induction children with
  | nil => intro st h; exact h
  | cons c cs ih =>
      intro st h
      simp only [List.foldl_cons]
      exact ih _ (hP _ _ h)

theorem animateSection_activeFilter (sid : String) (st : NavState) :
    ((animateSection sid st).dom.filter isActiveSection).map Elem.id =
      (st.dom.filter isActiveSection).map Elem.id := by
  unfold animateSection
  exact foldl_animate_preserve (fun s => (s.dom.filter isActiveSection).map Elem.id)
    (fun eid s => animateElementById_activeFilter eid s) _ st

theorem animateElementById_classes_nodup (eid : String) (st : NavState)
    (h : ∀ e ∈ st.dom, e.classes.Nodup) :
    ∀ e ∈ (animateElementById eid st).dom, e.classes.Nodup := by
  unfold animateElementById
  split
  · exact h
  · exact updateFirst_forall _ _ _ (fun x hx => classes_nodup_addClass _ x hx) st.dom h

theorem animateElementById_inv (eid : String) (st : NavState) (h : NavInv st) :
    NavInv (animateElementById eid st) := by
  obtain ⟨h1, h2, h3, h4⟩ := h
  have hf := animateElementById_fields eid st
  refine ⟨?_, ?_, ?_, animateElementById_classes_nodup eid st h4⟩
  · rw [hf.2.2.2.1]; exact h1
  · rw [hf.2.2.2.2]; exact h2
  · rw [hf.2.2.2.2, hf.2.2.2.1]; exact h3

theorem animateSection_inv (sid : String) (st : NavState) (h : NavInv st) :
    NavInv (animateSection sid st) := by
  unfold animateSection
  exact foldl_animate_pred NavInv (fun eid s hs => animateElementById_inv eid s hs) _ st h

theorem showSection_inv (sid : String) (st : NavState) (h : NavInv st) :
    NavInv (showSection sid st) := by
  obtain ⟨h1, h2, h3, h4⟩ := h
  unfold showSection
  split
  · exact ⟨h1, h2, h3,
      updateFirst_forall _ _ _ (fun x hx => classes_nodup_removeClass _ x hx) st.dom h4⟩
  · have hdom2 : ∀ e ∈ updateFirst (fun e => e.id == sid) (addClass "active")
        (updateFirst isActiveSection (removeClass "active") st.dom), e.classes.Nodup :=
      updateFirst_forall _ _ _ (fun x hx => classes_nodup_addClass _ x hx) _
        (updateFirst_forall _ _ _ (fun x hx => classes_nodup_removeClass _ x hx) st.dom h4)
    exact animateSection_inv sid _ ⟨h1, h2, h3, hdom2⟩

theorem observerCallback_inv (eid : String) (st : NavState) (h : NavInv st) :
    NavInv (observerCallback eid st) := by
  obtain ⟨h1, h2, h3, h4⟩ := h
  unfold observerCallback
  split
  · exact ⟨h1, h2, h3, h4⟩
  · rename_i hmem
    have hnm : eid ∉ st.hasAnimated := fun hm =>
      hmem ((string_contains_iff _ _).mpr hm)
    have hno : eid ∉ st.observerLog := fun hm => hnm (h3 _ hm)
    have hf := animateElementById_fields eid st
    refine ⟨?_, ?_, ?_, animateElementById_classes_nodup eid st h4⟩
    · show ((animateElementById eid st).hasAnimated ++ [eid]).Nodup
      rw [hf.2.2.2.1]
      simp [List.nodup_append, h1, hnm]
    · show ((animateElementById eid st).observerLog ++ [eid]).Nodup
      rw [hf.2.2.2.2]
      simp [List.nodup_append, h2, hno]
    · show ∀ x ∈ (animateElementById eid st).observerLog ++ [eid],
        x ∈ (animateElementById eid st).hasAnimated ++ [eid]
      rw [hf.2.2.2.1, hf.2.2.2.2]
      intro x hx
      rcases List.mem_append.mp hx with hxl | hxe
      · exact List.mem_append.mpr (Or.inl (h3 _ hxl))
      · exact List.mem_append.mpr (Or.inr hxe)

theorem navRun_inv (evs : List NavEvent) (st : NavState) (h : NavInv st) :
    NavInv (navRun evs st) := by
  induction evs generalizing st with
  | nil => exact h
  | cons ev evs ih =>
      refine ih (navStep ev st) ?_
      cases ev with
      | navigate sid => exact showSection_inv sid st h
      | intersect eid => exact observerCallback_inv eid st h

/-! ## Navigation claim theorems -/

/-- C1: for every section identifier `S` naming an existing section, in a
document with unique ids and at most one active section, `showSection S`
results in exactly one section element carrying the `active` class, and
that section is `S` (the previously active section loses the class, `S`
gains it). -/
theorem showSection_exactly_one_active (st : NavState) (S : String) (y : Elem)
    (hids : (st.dom.map Elem.id).Nodup)
    (hy : y ∈ st.dom) (hyid : y.id = S) (hysec : hasClass y "section" = true)
    (hactive : (st.dom.filter isActiveSection).length ≤ 1) :
    ((showSection S st).dom.filter isActiveSection).map Elem.id = [S] := by
  have hids1 : ((updateFirst isActiveSection (removeClass "active") st.dom).map
      Elem.id).Nodup := by
    rw [updateFirst_map_id _ _ (fun e => removeClass_id_eq _ e)]
    exact hids
  have h0 : (updateFirst isActiveSection (removeClass "active") st.dom).filter
      isActiveSection = [] :=
    removeActive_filter_eq_nil st.dom hactive
  have hy1 : ∃ x ∈ updateFirst isActiveSection (removeClass "active") st.dom,
      x.id = S ∧ hasClass x "section" = true :=
    updateFirst_exists _ _ _
      (fun x hx => ⟨by rw [removeClass_id_eq]; exact hx.1,
                    by rw [hasClass_removeClass_ne _ _ _ (by decide)]; exact hx.2⟩)
      st.dom y hy ⟨hyid, hysec⟩
  obtain ⟨x, hx, hxid, hxsec⟩ := hy1
  unfold showSection
  split
  · rename_i heq
    exfalso
    have := List.find?_eq_none.mp heq x hx
    simp [hxid] at this
  · rename_i e heq
    show ((animateSection S _).dom.filter isActiveSection).map Elem.id = [S]
    rw [animateSection_activeFilter]
    exact addActive_filter _ S h0 hids1 x hx hxid hxsec

/-- Witness for C1: navigating the demo document to `educacion` leaves
exactly that section active. -/
theorem showSection_exactly_one_active_witness :
    ((demoState.dom.map Elem.id).Nodup ∧
      (⟨"educacion", ["section"], none⟩ : Elem) ∈ demoState.dom ∧
      (demoState.dom.filter isActiveSection).length ≤ 1) ∧
    ((showSection "educacion" demoState).dom.filter isActiveSection).map Elem.id =
      ["educacion"] :=
  ⟨⟨by decide, by decide, by decide⟩,
   showSection_exactly_one_active demoState "educacion" ⟨"educacion", ["section"], none⟩
     (by decide) (by decide) rfl (by decide) (by decide)⟩

/-- C2 counterexample: `showSection` with an unknown identifier is not a
no-op — on the demo document it removes the `active` class from the
currently active section (`perfil`), leaving zero active sections, even
though the current-section record and URL stay unchanged. -/
theorem showSection_unknown_counterexample :
    (demoState.dom.filter isActiveSection).map Elem.id = ["perfil"] ∧
    ((showSection "contacto" demoState).dom.filter isActiveSection).map Elem.id = [] ∧
    (showSection "contacto" demoState).currentSection = demoState.currentSection ∧
    (showSection "contacto" demoState).url = demoState.url := by
  decide

/-- C2 amended: for an identifier naming no element, `showSection` leaves
the recorded current section, URL, menu flag and seen-set unchanged, but
deactivates the currently active section (the removal happens before the
existence check), leaving zero active sections. -/
theorem showSection_unknown_amended (st : NavState) (S : String)
    (hnone : ∀ x ∈ st.dom, x.id ≠ S) :
    (showSection S st).currentSection = st.currentSection ∧
    (showSection S st).url = st.url ∧
    (showSection S st).isMenuOpen = st.isMenuOpen ∧
    (showSection S st).hasAnimated = st.hasAnimated ∧
    ((st.dom.filter isActiveSection).length ≤ 1 →
      (showSection S st).dom.filter isActiveSection = []) := by
  have hf : (updateFirst isActiveSection (removeClass "active") st.dom).find?
      (fun e => e.id == S) = none := by
    rw [List.find?_eq_none]
    intro x hx
    have hQ : ∀ z ∈ updateFirst isActiveSection (removeClass "active") st.dom,
        z.id ≠ S :=
      updateFirst_forall _ _ (fun z => z.id ≠ S)
        (fun z hz => by
          show (removeClass "active" z).id ≠ S
          rw [removeClass_id_eq]; exact hz) st.dom hnone
    simp [hQ x hx]
  unfold showSection
  rw [hf]
  exact ⟨rfl, rfl, rfl, rfl, fun h => removeActive_filter_eq_nil st.dom h⟩

/-- Witness for the amended C2 on the demo document. -/
theorem showSection_unknown_amended_witness :
    (∀ x ∈ demoState.dom, x.id ≠ "contacto") ∧
    ((showSection "contacto" demoState).currentSection = demoState.currentSection ∧
      (showSection "contacto" demoState).url = demoState.url ∧
      (showSection "contacto" demoState).isMenuOpen = demoState.isMenuOpen ∧
      (showSection "contacto" demoState).hasAnimated = demoState.hasAnimated ∧
      ((demoState.dom.filter isActiveSection).length ≤ 1 →
        (showSection "contacto" demoState).dom.filter isActiveSection = [])) :=
  ⟨by decide, showSection_unknown_amended demoState "contacto" (by decide)⟩

/-- C3 counterexample: navigating twice to `educacion` invokes the reveal
animation (`animateElement`) twice on the same element `edu-1` —
`animateSection` does not consult the seen-set, so the animation-class
assignment is not applied at most once per element over navigation
sequences. -/
theorem reveal_applied_twice_counterexample :
    (navRun c3Events demoState).animLog = ["edu-1", "edu-1"] ∧
    ¬ ((navRun c3Events demoState).animLog.count "edu-1" ≤ 1) := by
  decide

/-- C3 amended: over any event sequence, the seen-set holds at most one
entry per element and the observer-driven reveal fires at most once per
element; navigation-driven `animateSection` may re-invoke the animation
on every visit (see the counterexample), but the class assignment is
idempotent, so each animation class occurs at most once in an element's
class list. -/
theorem reveal_at_most_once_amended (evs : List NavEvent) (st : NavState)
    (h : NavInv st) :
    (∀ eid, (navRun evs st).hasAnimated.count eid ≤ 1) ∧
    (∀ eid, (navRun evs st).observerLog.count eid ≤ 1) ∧
    (∀ e ∈ (navRun evs st).dom, ∀ c, e.classes.count c ≤ 1) := by
  obtain ⟨h1, h2, h3, h4⟩ := navRun_inv evs st h
  exact ⟨fun eid => List.nodup_iff_count_le_one.mp h1 eid,
         fun eid => List.nodup_iff_count_le_one.mp h2 eid,
         fun e he c => List.nodup_iff_count_le_one.mp (h4 e he) c⟩

/-- Witness for the amended C3 on the double-navigation sequence. -/
theorem reveal_at_most_once_amended_witness :
    NavInv demoState ∧
    ((∀ eid, (navRun c3Events demoState).hasAnimated.count eid ≤ 1) ∧
      (∀ eid, (navRun c3Events demoState).observerLog.count eid ≤ 1) ∧
      (∀ e ∈ (navRun c3Events demoState).dom, ∀ c, e.classes.count c ≤ 1)) :=
  ⟨by decide, reveal_at_most_once_amended c3Events demoState (by decide)⟩

/-- C7 counterexample: resizing to width 600 with the menu open does not
close it — `handleResize` closes the menu only when the new width exceeds
768, so narrowing from 1200 to 600 leaves the menu open and its `active`
class in place. -/
theorem resize_narrow_keeps_menu_open :
    demoState.isMenuOpen = true ∧
    (handleResize 600 demoState).isMenuOpen = true ∧
    ((handleResize 600 demoState).dom.find? (fun e => hasClass e "nav-menu")).map
        (fun e => hasClass e "active") = some true := by
  decide

/-- C7 amended: while the menu is open, a resize whose new width exceeds
768 (widening past the breakpoint, e.g. 600 → 1200) closes the mobile
menu: the open flag clears and the `.nav-menu` element loses its `active`
class. -/
theorem handleResize_closes_menu_amended (st : NavState) (w : ℕ)
    (hopen : st.isMenuOpen = true) (hw : 768 < w) :
    (handleResize w st).isMenuOpen = false ∧
    (handleResize w st).dom.find? (fun e => hasClass e "nav-menu") =
      (st.dom.find? (fun e => hasClass e "nav-menu")).map (removeClass "active") ∧
    ∀ m, (handleResize w st).dom.find? (fun e => hasClass e "nav-menu") = some m →
      hasClass m "active" = false := by
  unfold handleResize
  rw [if_pos ⟨hw, hopen⟩]
  unfold recalculateAnimations
  rw [if_neg (by omega : ¬ w ≤ 768)]
  unfold closeMobileMenu
  have hfind := find?_updateFirst (fun e => hasClass e "nav-menu") (removeClass "active")
    (fun e he => by
      show hasClass (removeClass "active" e) "nav-menu" = true
      rw [hasClass_removeClass_ne _ _ _ (by decide)]; exact he) st.dom
  refine ⟨rfl, hfind, ?_⟩
  intro m hm
  rw [hfind] at hm
  cases hsrc : st.dom.find? (fun e => hasClass e "nav-menu") with
  | none => rw [hsrc] at hm; cases hm
  | some m0 =>
      rw [hsrc] at hm
      simp only [Option.map_some', Option.some.injEq] at hm
      rw [← hm]
      exact hasClass_removeClass_self _ _

/-- Witness for the amended C7: widening the demo viewport to 1200 closes
the open menu. -/
theorem handleResize_closes_menu_amended_witness :
    (demoState.isMenuOpen = true ∧ 768 < 1200) ∧
    ((handleResize 1200 demoState).isMenuOpen = false ∧
      (handleResize 1200 demoState).dom.find? (fun e => hasClass e "nav-menu") =
        (demoState.dom.find? (fun e => hasClass e "nav-menu")).map (removeClass "active") ∧
      ∀ m, (handleResize 1200 demoState).dom.find? (fun e => hasClass e "nav-menu") = some m →
        hasClass m "active" = false) :=
  ⟨⟨by decide, by decide⟩,
   handleResize_closes_menu_amended demoState 1200 (by decide) (by decide)⟩

end CVPortfolio
